import Mathlib

/-!
Shallow embedding of the `bevy_urdf` crate (files `src/events.rs` and
`src/plugin.rs`) for checking its natural-language specification.

Machine floating-point values (`f32`/`f64` coordinates) are modelled by exact
rationals; external collaborator types (rapier rigid bodies, colliders, Bevy
asset handles and entities) are modelled at the interface boundary described in
spec section 6.
-/

/-- 3-component vector with exact rational coordinates (models `glam::Vec3` /
`f64` triples from `urdf_rs`). -/
structure Vec3 where
  x : ℚ
  y : ℚ
  z : ℚ
deriving DecidableEq, Repr

/-- Quaternion `(x, y, z, w)` with exact rational components (models
`glam::Quat`; rapier's unit quaternion fields `i, j, k, w` map to
`x, y, z, w`). -/
structure Quat where
  x : ℚ
  y : ℚ
  z : ℚ
  w : ℚ
deriving DecidableEq, Repr

/-- Hamilton product, the component formula used by `glam`'s `Quat * Quat`. -/
def quatMul (a b : Quat) : Quat :=
  ⟨a.w * b.x + a.x * b.w + a.y * b.z - a.z * b.y,
   a.w * b.y - a.x * b.z + a.y * b.w + a.z * b.x,
   a.w * b.z + a.x * b.y - a.y * b.x + a.z * b.w,
   a.w * b.w - a.x * b.x - a.y * b.y - a.z * b.z⟩

/-- Rotation of a vector by a quaternion, the formula used by `glam`'s
`Quat::mul_vec3`: `v * (w*w - dot b b) + b * (dot v b * 2) + cross b v * (w * 2)`
with `b` the vector part. -/
def quatMulVec3 (q : Quat) (v : Vec3) : Vec3 :=
  let b2 : ℚ := q.x * q.x + q.y * q.y + q.z * q.z
  let d : ℚ := v.x * q.x + v.y * q.y + v.z * q.z
  ⟨v.x * (q.w * q.w - b2) + q.x * (d * 2) + (q.y * v.z - q.z * v.y) * (q.w * 2),
   v.y * (q.w * q.w - b2) + q.y * (d * 2) + (q.z * v.x - q.x * v.z) * (q.w * 2),
   v.z * (q.w * q.w - b2) + q.z * (d * 2) + (q.x * v.y - q.y * v.x) * (q.w * 2)⟩

/-- Rapier isometry: rotation quaternion `(i, j, k, w)` plus translation, the
value of `RigidBody::position()`. -/
structure RapierIsometry where
  rotation : Quat
  translation : Vec3
deriving DecidableEq, Repr

/-- Bevy `Transform` (translation, rotation, scale).  `Transform::from_translation`
leaves `scale = Vec3::ONE`. -/
structure Transform where
  translation : Vec3
  rotation : Quat
  scale : Vec3
deriving DecidableEq, Repr

/-- The conversion from a rapier pose to a Bevy transform as transcribed from
`handle_spawn_robot` (src/events.rs lines 126-147): `quat_fix` is the exact
value of `Quat::from_rotation_z(PI)` = `(0, 0, sin(PI/2), cos(PI/2))` =
`(0, 0, 1, 0)`; `bevy_quat = quat_fix * rapier_rot`;
`bevy_vec = quat_fix.mul_vec3(rapier_vec)`. -/
def spawnConvertTransform (rapier_pos : RapierIsometry) : Transform :=
  let rapier_rot := rapier_pos.rotation
  let quat_fix : Quat := ⟨0, 0, 1, 0⟩
  let bevy_quat := quatMul quat_fix ⟨rapier_rot.x, rapier_rot.y, rapier_rot.z, rapier_rot.w⟩
  let rapier_vec : Vec3 :=
    ⟨rapier_pos.translation.x, rapier_pos.translation.y, rapier_pos.translation.z⟩
  let bevy_vec := quatMulVec3 quat_fix rapier_vec
  ⟨bevy_vec, bevy_quat, ⟨1, 1, 1⟩⟩

/-- The conversion from a rapier pose to a Bevy transform as transcribed from
`sync_robot_geometry` (src/plugin.rs lines 67-83); written out separately
because the source duplicates the code at the two sites. -/
def syncConvertTransform (rapier_pos : RapierIsometry) : Transform :=
  let rapier_rot := rapier_pos.rotation
  let quat_fix : Quat := ⟨0, 0, 1, 0⟩
  let bevy_quat := quatMul quat_fix ⟨rapier_rot.x, rapier_rot.y, rapier_rot.z, rapier_rot.w⟩
  let rapier_vec : Vec3 :=
    ⟨rapier_pos.translation.x, rapier_pos.translation.y, rapier_pos.translation.z⟩
  let bevy_vec := quatMulVec3 quat_fix rapier_vec
  ⟨bevy_vec, bevy_quat, ⟨1, 1, 1⟩⟩

/-- The remap that claim C3 describes: a 180 degree rotation about the up (Y)
axis of the renderer (target) convention, i.e. the exact value of
`Quat::from_rotation_y(PI)`. -/
def yUpRemap : Quat := ⟨0, 1, 0, 0⟩

/-- The remap actually used by the code: the exact value of
`Quat::from_rotation_z(PI)`, a 180 degree rotation about the Z axis. -/
def zUpRemap : Quat := ⟨0, 0, 1, 0⟩


/-- Model of `urdf_rs::Geometry`: the closed set of visual geometry kinds. -/
inductive Geometry where
  | box (size : Vec3)
  | cylinder (radius length : ℚ)
  | capsule (radius length : ℚ)
  | sphere (radius : ℚ)
  | mesh (filename : String) (scale : Option Vec3)
deriving DecidableEq, Repr

/-- Model of `urdf_rs::Pose`: translation plus roll/pitch/yaw. -/
structure Pose where
  xyz : Vec3
  rpy : Vec3
deriving DecidableEq, Repr

/-- Model of `urdf_rs::Visual`, restricted to the one field this crate reads. -/
structure Visual where
  geometry : Geometry
deriving DecidableEq, Repr

/-- Model of `urdf_rs::Inertial`, restricted to the one field this crate reads. -/
structure Inertial where
  origin : Pose
deriving DecidableEq, Repr

/-- Model of `urdf_rs::Link`, restricted to the fields this crate reads. -/
structure Link where
  visual : List Visual
  inertial : Inertial
deriving DecidableEq, Repr

/-- Model of `urdf_rs::Robot`, restricted to the fields this crate reads. -/
structure Robot where
  links : List Link
deriving DecidableEq, Repr

/-- An opaque rapier collision shape (external type), modelled by identity. -/
structure Collider where
  id : Nat
deriving DecidableEq, Repr

/-- One link of the physics-ready template (`rapier3d_urdf::UrdfLink`): its
rigid body (of which this crate reads `position()`) and its colliders. -/
structure UrdfLink where
  body : RapierIsometry
  colliders : List Collider
deriving DecidableEq, Repr

/-- The physics-ready multibody template (`rapier3d_urdf::UrdfRobot`); its
joints are not inspected individually by this crate, so they are modelled by
their count. -/
structure UrdfRobot where
  links : List UrdfLink
  jointCount : Nat
deriving DecidableEq, Repr

/-- The loaded asset (`UrdfAsset`, declared in the crate's
`urdf_asset_loader` module which only this crate's two source files consume):
the parsed `urdf_rs` description `robot` and the physics template
`urdf_robot`, as accessed by `extract_robot_geometry` and
`handle_spawn_robot`. -/
structure UrdfAsset where
  robot : Robot
  urdf_robot : UrdfRobot
deriving DecidableEq, Repr

/-- The rapier context tables of one simulation context
(`RapierRigidBodySet` / `RapierContextColliders` / `RapierContextJoints`):
the rigid body table is a list of body poses whose indices are the body
handles; multibody joints are modelled by their count. -/
structure PhysicsState where
  bodies : List RapierIsometry
  colliders : List Collider
  joints : Nat
deriving DecidableEq, Repr

/-- Modelled from the spec: the external physics engine operation
`insert_multibody(template, options) -> per-link BodyHandle list`
(spec section 6; the call site is
`urdf_robot.insert_using_multibody_joints(bodies, colliders, joints, DISABLE_SELF_CONTACTS)`
at src/events.rs lines 71-76, the implementation living in the external
`rapier3d_urdf` crate).  Every template link contributes its body and its
colliders to the tables, joints are inserted, and the returned handles are the
fresh body-table indices in link order. -/
def insertUsingMultibodyJoints (r : UrdfRobot) (st : PhysicsState) :
    PhysicsState × List Nat :=
  (⟨st.bodies ++ r.links.map (fun l => l.body),
    st.colliders ++ (r.links.map (fun l => l.colliders)).flatten,
    st.joints + r.jointCount⟩,
   (List.range r.links.length).map (fun i => st.bodies.length + i))

/-- The ways `handle_spawn_robot` can panic (a Rust panic aborts the
application; no entities are created past it). -/
inductive Panic where
  | noSimulationContext
  | indexOutOfBounds
  | linkCountMismatch
  | todoUnimplemented
deriving DecidableEq, Repr

/-- Recursion core of `extract_robot_geometry` (src/plugin.rs lines 35-58):
walks `robot.robot.links` with its enumeration index `i`, reading
`robot.urdf_robot.links[i]` (whose absence is the out-of-bounds panic,
modelled as `none`). -/
def extractGo (templateLinks : List UrdfLink) :
    Nat → List Link → Option (List (Nat × Option Geometry × Pose × Option Collider))
  | _, [] => some []
  | i, link :: rest =>
    match templateLinks[i]? with
    | none => none
    | some tlink =>
      let collider : Option Collider :=
        if tlink.colliders.length = 1 then tlink.colliders.head? else none
      let geometry : Option Geometry :=
        if link.visual.isEmpty then none else (link.visual.head?).map (fun v => v.geometry)
      let inertia_origin := link.inertial.origin
      match extractGo templateLinks (i + 1) rest with
      | none => none
      | some l => some ((i, geometry, inertia_origin, collider) :: l)

/-- Transcription of `extract_robot_geometry` (src/plugin.rs lines 35-58). -/
def extract_robot_geometry (robot : UrdfAsset) :
    Option (List (Nat × Option Geometry × Pose × Option Collider)) :=
  extractGo robot.urdf_robot.links 0 robot.robot.links

/-- Model of `Path::new(base).join(file)` for the strings this crate builds: joins with
a separator, except that an absolute `file` replaces `base`. -/
def joinPath (base file : String) : String :=
  if file.startsWith "/" then file else base ++ "/" ++ file

/-- A renderer mesh as produced by the `match geom.unwrap()` arms of
`handle_spawn_robot` (src/events.rs lines 106-124). -/
inductive Mesh3d where
  | cuboid (xLength yLength zLength : ℚ)
  | sphere (radius : ℚ)
  | asset (path : String)
deriving DecidableEq, Repr

/-- The geometry kinds whose arm in `handle_spawn_robot` is `todo!()`. -/
def isUnimplemented : Geometry → Bool
  | .cylinder _ _ => true
  | .capsule _ _ => true
  | _ => false

/-- The `match geom.unwrap()` mesh resolution of `handle_spawn_robot`
(src/events.rs lines 106-124): box sizes are doubled with the Y/Z axes
swapped, sphere keeps its radius, a mesh reference is loaded from
`mesh_dir` joined with the filename, and cylinder and capsule hit `todo!()`
(a panic, modelled as an error). -/
def resolveMesh (mesh_dir : String) : Geometry → Except Panic Mesh3d
  | .box size => .ok (.cuboid (size.x * 2) (size.z * 2) (size.y * 2))
  | .cylinder _ _ => .error .todoUnimplemented
  | .capsule _ _ => .error .todoUnimplemented
  | .sphere radius => .ok (.sphere radius)
  | .mesh filename _scale => .ok (.asset (joinPath mesh_dir filename))

/-- The material constant `Color::srgb(0.3, 0.4, 0.3)` as an exact rgb triple. -/
def linkMaterial : Vec3 := ⟨3 / 10, 2 / 5, 3 / 10⟩

/-- A child entity spawned for one link with visual geometry: mesh, material,
`UrdfRobotRigidBodyHandle` back-reference, `RapierContextEntityLink`, and the
converted initial transform (src/events.rs lines 149-155). -/
structure LinkEntity where
  mesh : Mesh3d
  material : Vec3
  bodyHandle : Nat
  contextLink : Nat
  transform : Transform
deriving DecidableEq, Repr

/-- The `for (index, geom, _inertia_pose, _collider) in geoms` loop of
`handle_spawn_robot` (src/events.rs lines 101-156): links without geometry are
skipped (`continue`); otherwise the mesh is resolved (cylinder/capsule panic),
the template link at `index` provides the pose converted by the spawn-time
conversion, and the entity stores `body_handles[index]`. -/
def buildEntities (mesh_dir : String) (templateLinks : List UrdfLink)
    (bodyHandles : List Nat) (ctx : Nat) :
    List (Nat × Option Geometry × Pose × Option Collider) →
      Except Panic (List LinkEntity)
  | [] => .ok []
  | (index, geom, _inertia_pose, _collider) :: rest =>
    match geom with
    | none => buildEntities mesh_dir templateLinks bodyHandles ctx rest
    | some g =>
      match resolveMesh mesh_dir g with
      | .error p => .error p
      | .ok mesh_3d =>
        match templateLinks[index]? with
        | none => .error .indexOutOfBounds
        | some rapier_link =>
          let transform := spawnConvertTransform rapier_link.body
          match bodyHandles[index]? with
          | none => .error .indexOutOfBounds
          | some bh =>
            match buildEntities mesh_dir templateLinks bodyHandles ctx rest with
            | .error p => .error p
            | .ok es => .ok (⟨mesh_3d, linkMaterial, bh, ctx, transform⟩ :: es)

/-- The parent `UrdfRobot {}` entity transform:
`Transform::IDENTITY.with_rotation(Quat::from_rotation_x(PI))`, with
`Quat::from_rotation_x(PI)` exactly `(1, 0, 0, 0)` (src/events.rs line 97). -/
def rootRobotTransform : Transform := ⟨⟨0, 0, 0⟩, ⟨1, 0, 0, 0⟩, ⟨1, 1, 1⟩⟩

/-- The renderer-side container entity spawned per robot: transform, name
`"URDF Robot"`, `InheritedVisibility::VISIBLE`, and its children. -/
structure RobotInstance where
  transform : Transform
  name : String
  visible : Bool
  entities : List LinkEntity
deriving DecidableEq, Repr

/-- The resolved branch of `handle_spawn_robot` (src/events.rs lines 63-157)
for one `SpawnRobot` event, acting on the (assumed unique) rapier context
tables `st`: insert the multibody template, collect the per-link body handles,
extract the geometry tuples, `assert_eq!` the two counts, then spawn the
parent entity with one child per link with geometry.  The returned state is
the table state at exit, also on the panic paths (the insertion at lines 71-76
has already mutated the tables when a later panic aborts the app). -/
def spawnRobotResolved (ctx : Nat) (urdf : UrdfAsset) (mesh_dir : String)
    (st : PhysicsState) : PhysicsState × Except Panic RobotInstance :=
  let inserted := insertUsingMultibodyJoints urdf.urdf_robot st
  let body_handles := inserted.2
  match extract_robot_geometry urdf with
  | none => (inserted.1, .error .indexOutOfBounds)
  | some geoms =>
    if body_handles.length = geoms.length then
      match buildEntities mesh_dir urdf.urdf_robot.links body_handles ctx geoms with
      | .error p => (inserted.1, .error p)
      | .ok es => (inserted.1, .ok ⟨rootRobotTransform, "URDF Robot", true, es⟩)
    else (inserted.1, .error .linkCountMismatch)

/-- Event `SpawnRobot`: load handle (opaque, modelled as `Nat`) and mesh
directory. -/
structure SpawnRobot where
  handle : Nat
  mesh_dir : String
deriving DecidableEq, Repr

/-- Event `WaitRobotLoaded`. -/
structure WaitRobotLoaded where
  handle : Nat
  mesh_dir : String
deriving DecidableEq, Repr

/-- Event `RobotLoaded`. -/
structure RobotLoaded where
  handle : Nat
  mesh_dir : String
deriving DecidableEq, Repr

/-- Event `LoadRobot`. -/
structure LoadRobot where
  urdf_path : String
  mesh_dir : String
deriving DecidableEq, Repr

/-- Transcription of `handle_spawn_robot` (src/events.rs lines 43-165) over the list of pending
`SpawnRobot` events: for each event it first takes
`q_rapier_context_simulation.iter().next().unwrap()` — a panic when the
simulation-context query `simContexts` is empty, before the resolved test —
then queries the asset store; an unresolved handle emits one `WaitRobotLoaded`
and a resolved one runs `spawnRobotResolved` on the context tables `st`.
A panic aborts the app, so outputs die with it (only the already mutated
tables remain). -/
def handle_spawn_robot (simContexts : List Nat) (store : Nat → Option UrdfAsset)
    (st : PhysicsState) :
    List SpawnRobot → PhysicsState × Except Panic (List WaitRobotLoaded × List RobotInstance)
  | [] => (st, .ok ([], []))
  | event :: rest =>
    match simContexts.head? with
    | none => (st, .error .noSimulationContext)
    | some ctx =>
      match store event.handle with
      | some urdf =>
        match spawnRobotResolved ctx urdf event.mesh_dir st with
        | (st1, .error p) => (st1, .error p)
        | (st1, .ok inst) =>
          match handle_spawn_robot simContexts store st1 rest with
          | (st2, .error p) => (st2, .error p)
          | (st2, .ok (ws, insts)) => (st2, .ok (ws, inst :: insts))
      | none =>
        match handle_spawn_robot simContexts store st rest with
        | (st2, .error p) => (st2, .error p)
        | (st2, .ok (ws, insts)) => (st2, .ok (⟨event.handle, event.mesh_dir⟩ :: ws, insts))

/-- Rust `str::replace("assets/", "")` on the character list of the string:
every non-overlapping occurrence of `assets/` is removed, scanning left to
right (src/events.rs line 183). -/
def replaceAssets : List Char → List Char
  | [] => []
  | 'a' :: 's' :: 's' :: 'e' :: 't' :: 's' :: '/' :: rest => replaceAssets rest
  | c :: rest => c :: replaceAssets rest

/-- The pattern `assets/` as a character list. -/
def assetsChars : List Char := ['a', 's', 's', 'e', 't', 's', '/']

/-- String-level wrapper of `replaceAssets`. -/
def stringReplaceAllAssets (s : String) : String := ⟨replaceAssets s.data⟩

/-- What the claim describes instead: strip `assets/` only when it is the
leading seven characters, leaving the rest of the path unchanged. -/
def stripLeadingAssets : List Char → List Char
  | 'a' :: 's' :: 's' :: 'e' :: 't' :: 's' :: '/' :: rest => rest
  | s => s

/-- Helper for stating when a character list contains no occurrence of
`assets/` at any position. -/
def containsAssetsPat : List Char → Bool
  | [] => false
  | 'a' :: 's' :: 's' :: 'e' :: 't' :: 's' :: '/' :: _ => true
  | _ :: rest => containsAssetsPat rest

/-- Transcription of `handle_load_robot` (src/events.rs lines 167-186) over the pending
`LoadRobot` events: each issues an asynchronous `load_with_settings` (the
external asset server allots the next fresh handle, modelled by the counter
`nextHandle`) and emits `RobotLoaded` with
`mesh_dir = event.mesh_dir.replace("assets/", "")`. -/
def handle_load_robot (nextHandle : Nat) : List LoadRobot → List RobotLoaded
  | [] => []
  | event :: rest =>
    ⟨nextHandle, stringReplaceAllAssets event.mesh_dir⟩ :: handle_load_robot (nextHandle + 1) rest

/-- Transcription of `handle_wait_robot_loaded` (src/events.rs lines 187-197): every
`WaitRobotLoaded` is re-emitted as a `SpawnRobot` with the same fields. -/
def handle_wait_robot_loaded (events : List WaitRobotLoaded) : List SpawnRobot :=
  events.map (fun event => ⟨event.handle, event.mesh_dir⟩)

/-- Transcription of `sync_robot_geometry` (src/plugin.rs lines 60-87): every entity whose
body handle resolves in the rigid body set gets its transform overwritten by
the converted current pose; entities whose handle does not resolve are left
unchanged. -/
def sync_robot_geometry (st : PhysicsState) (entities : List LinkEntity) :
    List LinkEntity :=
  entities.map (fun e =>
    match st.bodies[e.bodyHandle]? with
    | some robot_body => { e with transform := syncConvertTransform robot_body }
    | none => e)

/-- The event queues, rapier tables, and spawned robots of the running app:
one tick runs the registered systems `handle_spawn_robot`,
`handle_load_robot`, `handle_wait_robot_loaded` (src/plugin.rs lines 22-30)
over the pending events. -/
structure PipelineState where
  loadQ : List LoadRobot
  loadedQ : List RobotLoaded
  spawnQ : List SpawnRobot
  waitQ : List WaitRobotLoaded
  phys : PhysicsState
  robots : List RobotInstance
  nextHandle : Nat
deriving DecidableEq, Repr

/-- One tick of the plugin's `Update` schedule with a single simulation
context: `handle_spawn_robot` consumes the pending `SpawnRobot` events,
`handle_load_robot` turns `LoadRobot` events into `RobotLoaded` events (which
no registered system reads, so they accumulate), and
`handle_wait_robot_loaded` turns the `WaitRobotLoaded` events into the next
tick's `SpawnRobot` events. -/
def tick (store : Nat → Option UrdfAsset) (s : PipelineState) :
    Except Panic PipelineState :=
  match handle_spawn_robot [0] store s.phys s.spawnQ with
  | (_, .error p) => .error p
  | (phys1, .ok (waits, insts)) =>
    .ok { loadQ := [],
          loadedQ := s.loadedQ ++ handle_load_robot s.nextHandle s.loadQ,
          spawnQ := handle_wait_robot_loaded (s.waitQ ++ waits),
          waitQ := [],
          phys := phys1,
          robots := s.robots ++ insts,
          nextHandle := s.nextHandle + s.loadQ.length }

/-- Iterated ticks, propagating a panic. -/
def runTicks (store : Nat → Option UrdfAsset) :
    Nat → PipelineState → Except Panic PipelineState
  | 0, s => .ok s
  | n + 1, s =>
    match tick store s with
    | .error p => .error p
    | .ok s1 => runTicks store n s1

/-- Empty rapier tables. -/
def emptyPhys : PhysicsState := ⟨[], [], 0⟩

/-- A pipeline state holding exactly one pending `SpawnRobot` event. -/
def initSpawn (e : SpawnRobot) (st : PhysicsState) : PipelineState :=
  ⟨[], [], [e], [], st, [], 0⟩

/-- A pipeline state holding exactly one pending `LoadRobot` event. -/
def initLoad (e : LoadRobot) (st : PhysicsState) : PipelineState :=
  ⟨[e], [], [], [], st, [], 0⟩

/-- Identity pose for example data. -/
def idPose : RapierIsometry := ⟨⟨0, 0, 0, 1⟩, ⟨0, 0, 0⟩⟩

/-- Example description link with a box visual. -/
def boxLink : Link := ⟨[⟨Geometry.box ⟨1, 2, 3⟩⟩], ⟨⟨⟨0, 0, 0⟩, ⟨0, 0, 0⟩⟩⟩⟩

/-- Example description link with no visual. -/
def plainLink : Link := ⟨[], ⟨⟨⟨0, 0, 0⟩, ⟨0, 0, 0⟩⟩⟩⟩

/-- Example description link with a cylinder visual. -/
def cylLink : Link := ⟨[⟨Geometry.cylinder 1 2⟩], ⟨⟨⟨0, 0, 0⟩, ⟨0, 0, 0⟩⟩⟩⟩

/-- Example template link with one collider. -/
def tLink : UrdfLink := ⟨idPose, [⟨0⟩]⟩

/-- Example asset: one link with a box visual, consistent template. -/
def exampleUrdf : UrdfAsset := ⟨⟨[boxLink]⟩, ⟨[tLink], 0⟩⟩

/-- Example asset whose template has 3 links but whose description has 2:
the spec's shape-mismatch scenario. -/
def mismatchUrdf : UrdfAsset := ⟨⟨[plainLink, plainLink]⟩, ⟨[tLink, tLink, tLink], 0⟩⟩

/-- Example asset with a cylinder visual (the `todo!()` arm). -/
def cylUrdf : UrdfAsset := ⟨⟨[cylLink]⟩, ⟨[tLink], 0⟩⟩


/-- Whether every link whose first visual entry exists has a geometry kind
with an implemented arm in `handle_spawn_robot` (box, sphere or mesh). -/
def renderableLinks (links : List Link) : Bool :=
  links.all (fun link =>
    match link.visual.head? with
    | some v => !(isUnimplemented v.geometry)
    | none => true)

/-- Whether some link's first visual entry has a cylinder or capsule
geometry, i.e. hits the `todo!()` arms. -/
def hasUnimplementedVisual (links : List Link) : Bool :=
  links.any (fun link =>
    match link.visual.head? with
    | some v => isUnimplemented v.geometry
    | none => false)

/-- The link indices (counting from `i`) whose link has at least one visual
entry: exactly the links for which the spawn loop creates a child entity. -/
def visualIndicesFrom (i : Nat) : List Link → List Nat
  | [] => []
  | link :: rest =>
    if link.visual.isEmpty then visualIndicesFrom (i + 1) rest
    else i :: visualIndicesFrom (i + 1) rest

theorem geomOptEq (vs : List Visual) :
    (if vs.isEmpty then none else (vs.head?).map (fun v => v.geometry))
      = (vs.head?).map (fun v => v.geometry) := by
  cases vs <;> simp

theorem colliderOptEq (cs : List Collider) :
    (if cs.length = 1 then cs.head? else none)
      = (match cs with | [c] => some c | _ => none) := by
  match cs with
  | [] => simp
  | [c] => simp
  | c1 :: c2 :: rest => simp

theorem resolveMesh_ok_of_implemented (mesh_dir : String) (g : Geometry)
    (h : isUnimplemented g = false) : ∃ m, resolveMesh mesh_dir g = Except.ok m := by
  cases g with
  | box size => exact ⟨_, rfl⟩
  | cylinder r l => simp [isUnimplemented] at h
  | capsule r l => simp [isUnimplemented] at h
  | sphere r => exact ⟨_, rfl⟩
  | mesh f sc => exact ⟨_, rfl⟩

theorem resolveMesh_error_of_unimplemented (mesh_dir : String) (g : Geometry)
    (h : isUnimplemented g = true) :
    resolveMesh mesh_dir g = Except.error Panic.todoUnimplemented := by
  cases g <;> simp [isUnimplemented, resolveMesh] at h ⊢

theorem extractGo_length (tls : List UrdfLink) :
    ∀ (ls : List Link) (i : Nat) (geoms : List (Nat × Option Geometry × Pose × Option Collider)),
      extractGo tls i ls = some geoms → geoms.length = ls.length := by
  intro ls
  induction ls with
  | nil =>
    intro i geoms h
    simp [extractGo] at h
    simp [← h]
  | cons link rest ih =>
    intro i geoms h
    simp only [extractGo] at h
    cases htl : tls[i]? with
    | none => rw [htl] at h; simp at h
    | some tlink =>
      rw [htl] at h
      cases hrec : extractGo tls (i + 1) rest with
      | none => simp only [hrec] at h; simp at h
      | some l1 =>
        simp only [hrec] at h
        simp at h
        rw [← h]
        simp only [List.length_cons]
        rw [ih (i + 1) l1 hrec]

theorem visualIndicesFrom_length (ls : List Link) :
    ∀ i : Nat, (visualIndicesFrom i ls).length
      = ls.countP (fun l => !l.visual.isEmpty) := by
  induction ls with
  | nil => intro i; simp [visualIndicesFrom]
  | cons link rest ih =>
    intro i
    rw [visualIndicesFrom, List.countP_cons]
    cases hv : link.visual.isEmpty with
    | true => simp [hv, ih (i + 1)]
    | false => simp [hv, ih (i + 1)]

theorem extractGo_spec (tls : List UrdfLink) :
    ∀ (ls : List Link) (i : Nat), i + ls.length ≤ tls.length →
      ∃ l, extractGo tls i ls = some l ∧ l.length = ls.length ∧
        ∀ (k : Nat) (link : Link) (tlink : UrdfLink),
          ls[k]? = some link → tls[i + k]? = some tlink →
          l[k]? = some (i + k, (link.visual.head?).map (fun v => v.geometry),
            link.inertial.origin,
            match tlink.colliders with
            | [c] => some c
            | _ => none) := by
  intro ls
  induction ls with
  | nil =>
    intro i hle
    refine ⟨[], rfl, rfl, ?_⟩
    intro k link tlink hk htk
    simp at hk
  | cons link rest ih =>
    intro i hle
    have hi : i < tls.length := by simp at hle; omega
    have htl : tls[i]? = some tls[i] := List.getElem?_eq_getElem hi
    obtain ⟨l1, hl1, hlen1, hpt1⟩ := ih (i + 1) (by simp at hle ⊢; omega)
    refine ⟨(i, if link.visual.isEmpty then none
                else (link.visual.head?).map (fun v => v.geometry),
             link.inertial.origin,
             if (tls[i]).colliders.length = 1 then (tls[i]).colliders.head? else none) :: l1,
      ?_, by simp [hlen1], ?_⟩
    · simp only [extractGo, htl, hl1]
    · intro k lnk tlnk hk htk
      cases k with
      | zero =>
        simp at hk
        rw [Nat.add_zero] at htk
        rw [htl] at htk
        simp at htk
        subst hk
        subst htk
        simp only [List.getElem?_cons_zero, Nat.add_zero, geomOptEq, colliderOptEq]
      | succ k1 =>
        simp only [List.getElem?_cons_succ] at hk ⊢
        have heq : i + (k1 + 1) = i + 1 + k1 := by omega
        rw [heq] at htk ⊢
        exact hpt1 k1 lnk tlnk hk htk

theorem extractGo_build (mesh_dir : String) (ctx : Nat) (tls : List UrdfLink) (bhs : List Nat) :
    ∀ (ls : List Link) (i : Nat),
      i + ls.length ≤ tls.length →
      i + ls.length ≤ bhs.length →
      renderableLinks ls = true →
      ∃ geoms es,
        extractGo tls i ls = some geoms ∧
        buildEntities mesh_dir tls bhs ctx geoms = .ok es ∧
        es.map (fun e => e.bodyHandle) =
          (visualIndicesFrom i ls).map (fun j => bhs.getD j 0) := by
  intro ls
  induction ls with
  | nil =>
    intro i h1 h2 h3
    exact ⟨[], [], rfl, rfl, rfl⟩
  | cons link rest ih =>
    intro i h1 h2 h3
    have hi : i < tls.length := by simp at h1; omega
    have hib : i < bhs.length := by simp at h2; omega
    have htl : tls[i]? = some tls[i] := List.getElem?_eq_getElem hi
    have hbh : bhs[i]? = some bhs[i] := List.getElem?_eq_getElem hib
    rw [renderableLinks, List.all_cons, Bool.and_eq_true] at h3
    have h3r : renderableLinks rest = true := h3.2
    obtain ⟨geoms1, es1, hg1, hb1, hm1⟩ :=
      ih (i + 1) (by simp at h1 ⊢; omega) (by simp at h2 ⊢; omega) h3r
    cases hv : link.visual with
    | nil =>
      refine ⟨(i, none, link.inertial.origin,
          if (tls[i]).colliders.length = 1 then (tls[i]).colliders.head? else none) :: geoms1,
        es1, ?_, ?_, ?_⟩
      · simp only [extractGo, htl, hg1, hv, List.isEmpty_nil, if_pos]
      · rw [buildEntities]
        exact hb1
      · rw [visualIndicesFrom]
        simp only [hv, List.isEmpty_nil, if_pos]
        exact hm1
    | cons v vs =>
      have hhead : link.visual.head? = some v := by rw [hv]; rfl
      have himp : isUnimplemented v.geometry = false := by
        have := h3.1
        rw [hhead] at this
        simp at this
        exact this
      obtain ⟨m, hm⟩ := resolveMesh_ok_of_implemented mesh_dir v.geometry himp
      refine ⟨(i, some v.geometry, link.inertial.origin,
          if (tls[i]).colliders.length = 1 then (tls[i]).colliders.head? else none) :: geoms1,
        ⟨m, linkMaterial, bhs[i], ctx, spawnConvertTransform (tls[i]).body⟩ :: es1,
        ?_, ?_, ?_⟩
      · simp only [extractGo, htl, hg1]
        simp [hv]
      · rw [buildEntities]
        simp only [hm, htl, hbh, hb1]
      · rw [visualIndicesFrom]
        simp [hv, List.getD_eq_getElem?_getD, hbh, hm1]

theorem extractGo_build_err (mesh_dir : String) (ctx : Nat) (tls : List UrdfLink) (bhs : List Nat) :
    ∀ (ls : List Link) (i : Nat),
      i + ls.length ≤ tls.length →
      i + ls.length ≤ bhs.length →
      hasUnimplementedVisual ls = true →
      ∃ geoms,
        extractGo tls i ls = some geoms ∧
        buildEntities mesh_dir tls bhs ctx geoms = .error .todoUnimplemented := by
  intro ls
  induction ls with
  | nil =>
    intro i h1 h2 h3
    simp [hasUnimplementedVisual] at h3
  | cons link rest ih =>
    intro i h1 h2 h3
    have hi : i < tls.length := by simp at h1; omega
    have hib : i < bhs.length := by simp at h2; omega
    have htl : tls[i]? = some tls[i] := List.getElem?_eq_getElem hi
    have hbh : bhs[i]? = some bhs[i] := List.getElem?_eq_getElem hib
    rw [hasUnimplementedVisual, List.any_cons, Bool.or_eq_true] at h3
    cases hv : link.visual with
    | nil =>
      have h3r : hasUnimplementedVisual rest = true := by
        rcases h3 with h | h
        · rw [hv] at h; simp at h
        · exact h
      obtain ⟨geoms1, hg1, hb1⟩ :=
        ih (i + 1) (by simp at h1 ⊢; omega) (by simp at h2 ⊢; omega) h3r
      refine ⟨(i, none, link.inertial.origin,
          if (tls[i]).colliders.length = 1 then (tls[i]).colliders.head? else none) :: geoms1,
        ?_, ?_⟩
      · simp only [extractGo, htl, hg1, hv, List.isEmpty_nil, if_pos]
      · rw [buildEntities]
        exact hb1
    | cons v vs =>
      have hhead : link.visual.head? = some v := by rw [hv]; rfl
      cases hbad : isUnimplemented v.geometry with
      | true =>
        obtain ⟨geoms1, hg1, hlen1, hpt1⟩ :=
          extractGo_spec tls rest (i + 1) (by simp at h1 ⊢; omega)
        refine ⟨(i, some v.geometry, link.inertial.origin,
            if (tls[i]).colliders.length = 1 then (tls[i]).colliders.head? else none) :: geoms1,
          ?_, ?_⟩
        · simp only [extractGo, htl, hg1]
          simp [hv]
        · rw [buildEntities]
          simp only [resolveMesh_error_of_unimplemented mesh_dir v.geometry hbad]
      | false =>
        have h3r : hasUnimplementedVisual rest = true := by
          rcases h3 with h | h
          · rw [hhead] at h; simp [hbad] at h
          · exact h
        obtain ⟨geoms1, hg1, hb1⟩ :=
          ih (i + 1) (by simp at h1 ⊢; omega) (by simp at h2 ⊢; omega) h3r
        obtain ⟨m, hm⟩ := resolveMesh_ok_of_implemented mesh_dir v.geometry hbad
        refine ⟨(i, some v.geometry, link.inertial.origin,
            if (tls[i]).colliders.length = 1 then (tls[i]).colliders.head? else none) :: geoms1,
          ?_, ?_⟩
        · simp only [extractGo, htl, hg1]
          simp [hv]
        · rw [buildEntities]
          simp only [hm, htl, hbh, hb1]

theorem insert_handles_length (r : UrdfRobot) (st : PhysicsState) :
    (insertUsingMultibodyJoints r st).2.length = r.links.length := by
  simp [insertUsingMultibodyJoints]

theorem insert_bodies_length (r : UrdfRobot) (st : PhysicsState) :
    (insertUsingMultibodyJoints r st).1.bodies.length
      = st.bodies.length + r.links.length := by
  simp [insertUsingMultibodyJoints]

theorem spawnRobotResolved_ok (urdf : UrdfAsset) (st : PhysicsState) (ctx : Nat)
    (mesh_dir : String)
    (hlen : urdf.urdf_robot.links.length = urdf.robot.links.length)
    (hrend : renderableLinks urdf.robot.links = true) :
    ∃ es, spawnRobotResolved ctx urdf mesh_dir st =
        ((insertUsingMultibodyJoints urdf.urdf_robot st).1,
         .ok ⟨rootRobotTransform, "URDF Robot", true, es⟩) ∧
      es.map (fun e => e.bodyHandle) =
        (visualIndicesFrom 0 urdf.robot.links).map
          (fun j => (insertUsingMultibodyJoints urdf.urdf_robot st).2.getD j 0) := by
  have hbl : (insertUsingMultibodyJoints urdf.urdf_robot st).2.length
      = urdf.urdf_robot.links.length := insert_handles_length _ _
  obtain ⟨geoms, es, hg, hb, hmap⟩ :=
    extractGo_build mesh_dir ctx urdf.urdf_robot.links
      (insertUsingMultibodyJoints urdf.urdf_robot st).2 urdf.robot.links 0
      (by omega) (by omega) hrend
  have hglen : geoms.length = urdf.robot.links.length := extractGo_length _ _ _ _ hg
  have hg2 : extract_robot_geometry urdf = some geoms := hg
  have hcond : (insertUsingMultibodyJoints urdf.urdf_robot st).2.length = geoms.length := by
    rw [hbl, hglen, hlen]
  refine ⟨es, ?_, hmap⟩
  rw [spawnRobotResolved, hg2]
  simp only [hcond, eq_self_iff_true, if_true, hb]

theorem replaceAssets_no_occ (s : List Char) (h : containsAssetsPat s = false) :
    replaceAssets s = s := by
  induction s using replaceAssets.induct with
  | case1 => rfl
  | case2 rest ih => simp [containsAssetsPat] at h
  | case3 c rest hne ih =>
    rw [containsAssetsPat.eq_3 c rest hne] at h
    rw [replaceAssets.eq_3 c rest hne, ih h]

/-- Claim C3 counterexample: the identity-rotation pose translated to
`(0, 1, 0)` is written to the renderer with translation `(0, -1, 0)`, whereas
a remap that is a 180 degree rotation about the up (Y) axis of the target
convention, as the claim states, would leave `(0, 1, 0)` fixed. -/
theorem remap_not_target_up_axis_cex :
    (syncConvertTransform ⟨⟨0, 0, 0, 1⟩, ⟨0, 1, 0⟩⟩).translation = ⟨0, -1, 0⟩ ∧
    quatMulVec3 yUpRemap ⟨0, 1, 0⟩ = ⟨0, 1, 0⟩ ∧
    (⟨0, -1, 0⟩ : Vec3) ≠ ⟨0, 1, 0⟩ := by
  refine ⟨by norm_num [syncConvertTransform, quatMulVec3], ?_, ?_⟩
  · norm_num [quatMulVec3, yUpRemap]
  · intro hcontra
    rw [Vec3.mk.injEq] at hcontra
    norm_num at hcontra

/-- Claim C3 amended: the fixed remap of the pose conversion is the 180
degree rotation about the Z axis (the up axis of the physics/source
convention, `Quat::from_rotation_z(PI)`), not the renderer's Y up-axis;
with that remap `R`, the conversion is `renderer_translation = R · t`
(applied to the translation directly) and `renderer_rotation = R · r`, and
`R` acts on vectors as `(x, y, z) ↦ (-x, -y, z)`. -/
theorem remap_is_z_axis_half_turn (p : RapierIsometry) :
    syncConvertTransform p =
      ⟨quatMulVec3 zUpRemap p.translation, quatMul zUpRemap p.rotation, ⟨1, 1, 1⟩⟩ ∧
    quatMulVec3 zUpRemap p.translation =
      ⟨-(p.translation.x), -(p.translation.y), p.translation.z⟩ := by
  constructor
  · rfl
  · obtain ⟨r, t⟩ := p
    obtain ⟨tx, ty, tz⟩ := t
    simp only [quatMulVec3, zUpRemap]
    rw [Vec3.mk.injEq]
    refine ⟨by norm_num, by norm_num, by ring⟩

/-- Claim C4: the pose-to-transform conversion transcribed from the spawn
site (src/events.rs) and the one transcribed from the per-tick sync site
(src/plugin.rs) compute the same transform on every pose. -/
theorem spawn_and_sync_conversion_agree (p : RapierIsometry) :
    spawnConvertTransform p = syncConvertTransform p := rfl

/-- Claim C5 counterexample: on the request mesh_dir `"foo/assets/bar"` the
code emits `"foo/bar"` (every occurrence of `assets/` removed), while the
claimed leading-prefix strip leaves `"foo/assets/bar"` unchanged. -/
theorem mesh_dir_not_only_leading_cex :
    handle_load_robot 0 [⟨"assets/robots/r1.urdf", "foo/assets/bar"⟩]
        = [⟨0, "foo/bar"⟩] ∧
    stripLeadingAssets "foo/assets/bar".data = "foo/assets/bar".data ∧
    ("foo/bar" : String) ≠ "foo/assets/bar" := ⟨rfl, rfl, by decide⟩

/-- Claim C5 amended: the emitted `RobotLoaded` mesh_dir is the request's
mesh_dir with every occurrence of the substring `assets/` removed (Rust
`str::replace`), not only a leading prefix; when `assets/` occurs only as
the leading prefix (no occurrence in the remainder `s`) this coincides with
prefix-stripping, as in the spec's own example. -/
theorem mesh_dir_strips_every_assets_occurrence (n : Nat) (p : String)
    (s : List Char) (h : containsAssetsPat s = false) :
    handle_load_robot n [⟨p, String.mk (assetsChars ++ s)⟩]
        = [⟨n, String.mk s⟩] ∧
    replaceAssets s = s := by
  have hrep : replaceAssets s = s := replaceAssets_no_occ s h
  constructor
  · rw [handle_load_robot, handle_load_robot]
    rw [stringReplaceAllAssets]
    show [(⟨n, String.mk (replaceAssets (assetsChars ++ s))⟩ : RobotLoaded)] = _
    rw [show replaceAssets (assetsChars ++ s) = replaceAssets s from rfl, hrep]
  · exact hrep

/-- Claim C5 amended, witness at the spec's own example: the request
mesh_dir `"assets/robots/meshes"` is emitted as `"robots/meshes"`. -/
theorem mesh_dir_strips_every_assets_occurrence_witness :
    handle_load_robot 0 [⟨"assets/robots/r1.urdf",
        String.mk (assetsChars ++ "robots/meshes".data)⟩]
        = [⟨0, String.mk "robots/meshes".data⟩] ∧
    replaceAssets "robots/meshes".data = "robots/meshes".data :=
  mesh_dir_strips_every_assets_occurrence 0 "assets/robots/r1.urdf"
    "robots/meshes".data (by decide)

/-- Claim C10: processing any nonempty batch of `SpawnRobot` events with no
simulation context entity panics on the context `unwrap` before the
resolved/unresolved branch, whatever the asset store holds — the tables are
untouched and no wait event or robot is produced. -/
theorem spawn_requires_simulation_context (store : Nat → Option UrdfAsset)
    (st : PhysicsState) (events : List SpawnRobot) (h : events ≠ []) :
    handle_spawn_robot [] store st events
      = (st, Except.error Panic.noSimulationContext) := by
  cases events with
  | nil => exact absurd rfl h
  | cons e rest => rfl

/-- Claim C10 witness: one pending spawn event, empty context query, an
unresolved store. -/
theorem spawn_requires_simulation_context_witness :
    handle_spawn_robot [] (fun _ => none) emptyPhys [⟨0, "m"⟩]
      = (emptyPhys, Except.error Panic.noSimulationContext) :=
  spawn_requires_simulation_context (fun _ => none) emptyPhys [⟨0, "m"⟩] (by simp)

/-- Claim C1 counterexample: with the template/description link counts 3/2 of
the spec's mismatch scenario, instantiation does abort (panic on the
`assert_eq!`) before any visual entity exists, but the rigid body table has
already received the template's 3 bodies — it is not "exactly as it was
before the spawn attempt" (it was empty). -/
theorem mismatch_abort_mutates_tables_cex :
    (spawnRobotResolved 0 mismatchUrdf "meshes" emptyPhys).2
        = Except.error Panic.linkCountMismatch ∧
    (spawnRobotResolved 0 mismatchUrdf "meshes" emptyPhys).1.bodies.length = 3 ∧
    emptyPhys.bodies.length = 0 := ⟨rfl, rfl, rfl⟩

/-- Claim C1 amended: on any template/description link-count mismatch the
spawn aborts with a panic before any visual entity is created, but only
after `insert_using_multibody_joints` has already pushed the template's
bodies, colliders and joints into the context tables: the tables at the
abort are the inserted ones, not the pre-spawn ones. -/
theorem mismatch_aborts_after_insert (urdf : UrdfAsset) (st : PhysicsState)
    (ctx : Nat) (mesh_dir : String)
    (h : urdf.urdf_robot.links.length ≠ urdf.robot.links.length) :
    (∃ p, spawnRobotResolved ctx urdf mesh_dir st =
      ((insertUsingMultibodyJoints urdf.urdf_robot st).1, Except.error p)) ∧
    (insertUsingMultibodyJoints urdf.urdf_robot st).1.bodies.length
      = st.bodies.length + urdf.urdf_robot.links.length := by
  constructor
  · rw [spawnRobotResolved]
    cases hg : extract_robot_geometry urdf with
    | none => exact ⟨Panic.indexOutOfBounds, rfl⟩
    | some geoms =>
      have hcond : ¬ ((insertUsingMultibodyJoints urdf.urdf_robot st).2.length
          = geoms.length) := by
        rw [insert_handles_length,
          extractGo_length urdf.urdf_robot.links urdf.robot.links 0 geoms hg]
        exact h
      simp only [if_neg hcond]
      exact ⟨Panic.linkCountMismatch, rfl⟩
  · exact insert_bodies_length _ _

/-- Claim C1 amended, witness at the spec's 3-template/2-description
scenario. -/
theorem mismatch_aborts_after_insert_witness :
    (∃ p, spawnRobotResolved 0 mismatchUrdf "meshes" emptyPhys =
      ((insertUsingMultibodyJoints mismatchUrdf.urdf_robot emptyPhys).1, Except.error p)) ∧
    (insertUsingMultibodyJoints mismatchUrdf.urdf_robot emptyPhys).1.bodies.length
      = emptyPhys.bodies.length + mismatchUrdf.urdf_robot.links.length :=
  mismatch_aborts_after_insert mismatchUrdf emptyPhys 0 "meshes" (by decide)

/-- Claim C2 counterexample: a caller issues only `LoadRobot` (the spec's own
example request), the asset store resolves every handle, and five ticks of
the plugin's systems later no robot has been instantiated and no
`SpawnRobot` attempt exists — the single `RobotLoaded` event sits unread,
because no registered system consumes `RobotLoaded`. -/
theorem load_robot_alone_never_spawns_cex :
    (runTicks (fun _ => some exampleUrdf) 5
        (initLoad ⟨"assets/robots/r1.urdf", "assets/robots/meshes"⟩ emptyPhys)).map
      (fun s => (s.robots.length, s.loadedQ, s.spawnQ.length))
      = Except.ok (0, [⟨0, "robots/meshes"⟩], 0) := rfl

/-- Claim C2 amended: the plugin registers no system that reads
`RobotLoaded`, so `RobotLoaded` is never forwarded to `SpawnRobot` inside
the pipeline: from any state with no pending `SpawnRobot` or
`WaitRobotLoaded` events, a tick — under any asset store — only converts
`LoadRobot` events into accumulated `RobotLoaded` events and instantiates
nothing; the external caller must produce the `SpawnRobot` events itself. -/
theorem robot_loaded_has_no_consumer (store : Nat → Option UrdfAsset)
    (s : PipelineState) (h1 : s.spawnQ = []) (h2 : s.waitQ = []) :
    tick store s = Except.ok
      { s with loadQ := [],
               loadedQ := s.loadedQ ++ handle_load_robot s.nextHandle s.loadQ,
               nextHandle := s.nextHandle + s.loadQ.length } := by
  rcases s with ⟨loadQ, loadedQ, spawnQ, waitQ, phys, robots, nextHandle⟩
  simp only at h1 h2
  subst h1
  subst h2
  simp [tick, handle_spawn_robot, handle_wait_robot_loaded]

/-- Claim C2 amended, witness: one pending `LoadRobot`, fully resolved
store. -/
theorem robot_loaded_has_no_consumer_witness :
    tick (fun _ => some exampleUrdf)
        (initLoad ⟨"assets/robots/r1.urdf", "assets/robots/meshes"⟩ emptyPhys)
      = Except.ok
      { initLoad ⟨"assets/robots/r1.urdf", "assets/robots/meshes"⟩ emptyPhys with
          loadQ := [],
          loadedQ := (initLoad ⟨"assets/robots/r1.urdf", "assets/robots/meshes"⟩
              emptyPhys).loadedQ
            ++ handle_load_robot
              (initLoad ⟨"assets/robots/r1.urdf", "assets/robots/meshes"⟩
                emptyPhys).nextHandle
              (initLoad ⟨"assets/robots/r1.urdf", "assets/robots/meshes"⟩
                emptyPhys).loadQ,
          nextHandle := (initLoad ⟨"assets/robots/r1.urdf", "assets/robots/meshes"⟩
              emptyPhys).nextHandle
            + (initLoad ⟨"assets/robots/r1.urdf", "assets/robots/meshes"⟩
                emptyPhys).loadQ.length } :=
  robot_loaded_has_no_consumer (fun _ => some exampleUrdf)
    (initLoad ⟨"assets/robots/r1.urdf", "assets/robots/meshes"⟩ emptyPhys) rfl rfl

/-- Claim C6: for a description with N links of which M have a visual entry,
a successful instantiation adds exactly N bodies to the rigid body table and
creates exactly M child Link Entities, the k-th created entity storing the
body handle returned by the physics insertion at that entity's original link
index. -/
theorem spawn_counts_and_body_refs (urdf : UrdfAsset) (st : PhysicsState)
    (ctx : Nat) (mesh_dir : String)
    (hlen : urdf.urdf_robot.links.length = urdf.robot.links.length)
    (hrend : renderableLinks urdf.robot.links = true) :
    (spawnRobotResolved ctx urdf mesh_dir st).1.bodies.length
        = st.bodies.length + urdf.robot.links.length ∧
    ∃ inst, (spawnRobotResolved ctx urdf mesh_dir st).2 = Except.ok inst ∧
      inst.entities.length = urdf.robot.links.countP (fun l => !l.visual.isEmpty) ∧
      inst.entities.map (fun e => e.bodyHandle) =
        (visualIndicesFrom 0 urdf.robot.links).map
          (fun j => (insertUsingMultibodyJoints urdf.urdf_robot st).2.getD j 0) := by
  obtain ⟨es, heq, hmap⟩ := spawnRobotResolved_ok urdf st ctx mesh_dir hlen hrend
  constructor
  · rw [heq]
    rw [insert_bodies_length, hlen]
  · refine ⟨⟨rootRobotTransform, "URDF Robot", true, es⟩, ?_, ?_, hmap⟩
    · rw [heq]
    · show es.length = _
      have hlm := congrArg List.length hmap
      simp only [List.length_map] at hlm
      rw [hlm, visualIndicesFrom_length]

/-- Claim C6 witness: the one-box-link example asset on empty tables. -/
theorem spawn_counts_and_body_refs_witness :
    (spawnRobotResolved 0 exampleUrdf "m" emptyPhys).1.bodies.length
        = emptyPhys.bodies.length + exampleUrdf.robot.links.length ∧
    ∃ inst, (spawnRobotResolved 0 exampleUrdf "m" emptyPhys).2 = Except.ok inst ∧
      inst.entities.length
          = exampleUrdf.robot.links.countP (fun l => !l.visual.isEmpty) ∧
      inst.entities.map (fun e => e.bodyHandle) =
        (visualIndicesFrom 0 exampleUrdf.robot.links).map
          (fun j => (insertUsingMultibodyJoints exampleUrdf.urdf_robot emptyPhys).2.getD j 0) :=
  spawn_counts_and_body_refs exampleUrdf emptyPhys 0 "m" rfl rfl

/-- Claim C8: when the template and description link counts agree and some
link's first visual geometry is a cylinder or capsule, the spawn hits the
`todo!()` arm and aborts with the not-implemented panic — no placeholder
mesh is substituted and the link is not skipped (no robot instance is
produced at all). -/
theorem unimplemented_geometry_panics (urdf : UrdfAsset) (st : PhysicsState)
    (ctx : Nat) (mesh_dir : String)
    (hlen : urdf.urdf_robot.links.length = urdf.robot.links.length)
    (hbad : hasUnimplementedVisual urdf.robot.links = true) :
    (spawnRobotResolved ctx urdf mesh_dir st).2
      = Except.error Panic.todoUnimplemented := by
  have hbl := insert_handles_length urdf.urdf_robot st
  obtain ⟨geoms, hg, hb⟩ :=
    extractGo_build_err mesh_dir ctx urdf.urdf_robot.links
      (insertUsingMultibodyJoints urdf.urdf_robot st).2 urdf.robot.links 0
      (by omega) (by omega) hbad
  have hg2 : extract_robot_geometry urdf = some geoms := hg
  have hglen : geoms.length = urdf.robot.links.length := extractGo_length _ _ _ _ hg
  have hcond : (insertUsingMultibodyJoints urdf.urdf_robot st).2.length
      = geoms.length := by rw [hbl, hglen, hlen]
  rw [spawnRobotResolved, hg2]
  simp only [hcond, eq_self_iff_true, if_true, hb]

/-- Claim C8 witness: the one-cylinder-link example asset. -/
theorem unimplemented_geometry_panics_witness :
    (spawnRobotResolved 0 cylUrdf "m" emptyPhys).2
      = Except.error Panic.todoUnimplemented :=
  unimplemented_geometry_panics cylUrdf emptyPhys 0 "m" rfl rfl

/-- Claim C9: on a materialized description whose physics template covers
every link index, the geometry extractor returns one tuple per link index
`i`, carrying `i`, the first visual entry's geometry (none when the link has
no visual entries), the inertial origin, and the sole collision shape of the
template link (none when there are zero, or two or more, colliders). -/
theorem extract_robot_geometry_spec (asset : UrdfAsset)
    (h : asset.robot.links.length ≤ asset.urdf_robot.links.length) :
    ∃ l, extract_robot_geometry asset = some l ∧
      l.length = asset.robot.links.length ∧
      ∀ (i : Nat) (link : Link) (tlink : UrdfLink),
        asset.robot.links[i]? = some link →
        asset.urdf_robot.links[i]? = some tlink →
        l[i]? = some (i, (link.visual.head?).map (fun v => v.geometry),
          link.inertial.origin,
          match tlink.colliders with
          | [c] => some c
          | _ => none) := by
  obtain ⟨l, hl, hlen, hpt⟩ :=
    extractGo_spec asset.urdf_robot.links asset.robot.links 0 (by omega)
  refine ⟨l, hl, hlen, ?_⟩
  intro i link tlink hk htk
  have hres := hpt i link tlink hk (by rw [Nat.zero_add]; exact htk)
  rw [Nat.zero_add] at hres
  exact hres

/-- Claim C9 witness: the one-box-link example asset. -/
theorem extract_robot_geometry_spec_witness :
    ∃ l, extract_robot_geometry exampleUrdf = some l ∧
      l.length = exampleUrdf.robot.links.length ∧
      ∀ (i : Nat) (link : Link) (tlink : UrdfLink),
        exampleUrdf.robot.links[i]? = some link →
        exampleUrdf.urdf_robot.links[i]? = some tlink →
        l[i]? = some (i, (link.visual.head?).map (fun v => v.geometry),
          link.inertial.origin,
          match tlink.colliders with
          | [c] => some c
          | _ => none) :=
  extract_robot_geometry_spec exampleUrdf (by decide)

/-- Claim C7: with one pending `SpawnRobot` for an unresolved handle, every
tick re-emits exactly one `WaitRobotLoaded` (mutating nothing) which is
re-emitted as exactly one `SpawnRobot`, so N deferral ticks return the exact
initial state for every N; the first tick after the handle resolves runs
instantiation exactly once — one robot instance, the template's bodies added
once — and leaves no further events for that handle in any queue. -/
theorem retry_defer_then_single_instantiation (N : Nat) (e : SpawnRobot)
    (st : PhysicsState) (urdf : UrdfAsset)
    (hlen : urdf.urdf_robot.links.length = urdf.robot.links.length)
    (hrend : renderableLinks urdf.robot.links = true) :
    runTicks (fun _ => none) N (initSpawn e st) = Except.ok (initSpawn e st) ∧
    ∃ s1, tick (fun _ => some urdf) (initSpawn e st) = Except.ok s1 ∧
      s1.robots.length = 1 ∧
      s1.phys.bodies.length = st.bodies.length + urdf.robot.links.length ∧
      s1.spawnQ = [] ∧ s1.waitQ = [] ∧ s1.loadQ = [] ∧ s1.loadedQ = [] := by
  have hdefer : tick (fun _ => (none : Option UrdfAsset)) (initSpawn e st)
      = Except.ok (initSpawn e st) := by cases e; rfl
  constructor
  · induction N with
    | zero => rfl
    | succ n ih =>
      rw [runTicks, hdefer]
      exact ih
  · obtain ⟨es, heq, hmap⟩ := spawnRobotResolved_ok urdf st 0 e.mesh_dir hlen hrend
    refine ⟨⟨[], [], [], [], (insertUsingMultibodyJoints urdf.urdf_robot st).1,
      [⟨rootRobotTransform, "URDF Robot", true, es⟩], 0⟩, ?_, rfl, ?_, rfl, rfl, rfl, rfl⟩
    · rw [tick]
      simp only [initSpawn, handle_spawn_robot, List.head?_cons, heq,
        handle_wait_robot_loaded, handle_load_robot]
      rfl
    · show (insertUsingMultibodyJoints urdf.urdf_robot st).1.bodies.length = _
      rw [insert_bodies_length, hlen]

/-- Claim C7 witness: three deferral ticks on empty tables, then resolution
with the one-box-link example asset. -/
theorem retry_defer_then_single_instantiation_witness :
    runTicks (fun _ => none) 3 (initSpawn ⟨0, "m"⟩ emptyPhys)
        = Except.ok (initSpawn ⟨0, "m"⟩ emptyPhys) ∧
    ∃ s1, tick (fun _ => some exampleUrdf) (initSpawn ⟨0, "m"⟩ emptyPhys)
        = Except.ok s1 ∧
      s1.robots.length = 1 ∧
      s1.phys.bodies.length = emptyPhys.bodies.length + exampleUrdf.robot.links.length ∧
      s1.spawnQ = [] ∧ s1.waitQ = [] ∧ s1.loadQ = [] ∧ s1.loadedQ = [] :=
  retry_defer_then_single_instantiation 3 ⟨0, "m"⟩ emptyPhys exampleUrdf rfl rfl
